import Mathlib

/-!
Shallow embedding of the two scripts of this repository,
`scripts/audit-claude-configs.py` and `scripts/fix-claude-configs.py`.

The scripts inspect, per repository, a directory on disk: existence of a
handful of marker files, the parsed content of `package.json`, and the
content of `.claude/project.json`.  We embed this filesystem view as the
structure `RepoState` below; JSON documents are embedded as the inductive
`Json` (numbers are modelled as integers — no script ever computes with a
number, they only format values into strings).  Reading a file either
succeeds with a parsed document or fails to parse; this is the `FileData`
type.  Python expressions that can raise an exception (`dict.get` on a
non-dict, `"x" in v` on a non-container) are modelled with `Except String`,
the string standing for `str(e)`.
-/

set_option autoImplicit false

/-- A JSON value as produced by Python's `json.load`.  Numbers are modelled
as integers; the scripts never do arithmetic on JSON numbers. -/
inductive Json where
  | null : Json
  | bool (b : Bool) : Json
  | num (n : Int) : Json
  | str (s : String) : Json
  | arr (xs : List Json) : Json
  | obj (kvs : List (String × Json)) : Json

/-- Content of a file on disk, as seen through `json.load`: either the raw
text fails to parse (Python raises `json.JSONDecodeError`) or it parses to a
document. -/
inductive FileData where
  | invalid (raw : String) : FileData
  | valid (doc : Json) : FileData

/-- Boolean test that `pat` occurs at the front of `s` (character lists). -/
def isPrefixB : List Char → List Char → Bool
  | [], _ => true
  | _ :: _, [] => false
  | a :: as, b :: bs => a = b && isPrefixB as bs

/-- Boolean test that `pat` occurs somewhere inside `s` (character lists). -/
def hasSub (pat : List Char) : List Char → Bool
  | [] => isPrefixB pat []
  | c :: rest => isPrefixB pat (c :: rest) || hasSub pat rest

/-- Python's substring test `pat in s` on strings. -/
def strContains (s pat : String) : Bool :=
  hasSub pat.toList s.toList

/-- First value stored under key `k` in an association list, as Python's
`dict` lookup (parsed JSON objects have unique keys, so "first" is "the"). -/
def lookupK (kvs : List (String × Json)) (k : String) : Option Json :=
  (kvs.find? (fun p => p.1 == k)).map Prod.snd

/-- Python's `d[k] = v` on a dict: replace the value in place when the key
is present, append the pair otherwise. -/
def setObjKey (kvs : List (String × Json)) (k : String) (v : Json) : List (String × Json) :=
  if kvs.any (fun p => p.1 == k) then
    kvs.map (fun p => if p.1 == k then (p.1, v) else p)
  else
    kvs ++ [(k, v)]

/-- Python truthiness of a JSON value (`if extends:`). -/
def pyTruthy : Json → Bool
  | .null => false
  | .bool b => b
  | .num n => !(n == 0)
  | .str s => !(s == "")
  | .arr xs => !xs.isEmpty
  | .obj kvs => !kvs.isEmpty

mutual

/-- Python's `repr` of a JSON value (used by `str` on containers).  String
escaping inside nested strings is not modelled; no script ever formats a
container holding quote characters. -/
def pyRepr : Json → String
  | .null => "None"
  | .bool b => if b then "True" else "False"
  | .num n => toString n
  | .str s => "\x27" ++ s ++ "\x27"
  | .arr xs => "[" ++ pyReprList xs ++ "]"
  | .obj kvs => "\x7b" ++ pyReprObj kvs ++ "\x7d"

/-- Comma-separated `repr`s of the elements of a list. -/
def pyReprList : List Json → String
  | [] => ""
  | [x] => pyRepr x
  | x :: y :: rest => pyRepr x ++ ", " ++ pyReprList (y :: rest)

/-- Comma-separated `key: value` `repr`s of the entries of a dict. -/
def pyReprObj : List (String × Json) → String
  | [] => ""
  | [(k, v)] => "\x27" ++ k ++ "\x27: " ++ pyRepr v
  | (k, v) :: e :: rest => "\x27" ++ k ++ "\x27: " ++ pyRepr v ++ ", " ++ pyReprObj (e :: rest)

end

/-- Python's `str()` of a JSON value, as used by an f-string interpolation:
strings are inserted verbatim, everything else through `repr`-like text. -/
def pyStr (v : Json) : String :=
  match v with
  | .str s => s
  | _ => pyRepr v

/-- Python's `needle in v` for a needle that is a string literal: substring
test on strings, membership on lists, key membership on dicts, and a
`TypeError` (modelled as `.error`) on null, booleans and numbers. -/
def pyIn (needle : String) (v : Json) : Except String Bool :=
  match v with
  | .str s => .ok (strContains s needle)
  | .arr xs => .ok (xs.any (fun x => match x with | .str s => s == needle | _ => false))
  | .obj kvs => .ok (kvs.any (fun p => p.1 == needle))
  | _ => .error ("TypeError: argument of type is not iterable")

/-- The view both scripts have of one repository: the repository's name
(the directory's basename equals the repository name, since the scripts use
`WORKSPACE_DIR / repo_name`), whether the directory exists, which marker
files are present at its root, the outcome of reading `package.json`
(`none` = file absent; `some none` = present but reading or merging its
dependency dicts raised, which the scripts swallow; `some (some deps)` =
the merged key list of `dependencies` and `devDependencies`), and the
content of `.claude/project.json` (`none` = absent; meaningful only when
`dirExists` is true, since a file under a missing directory cannot exist). -/
structure RepoState where
  name : String
  dirExists : Bool
  cargoToml : Bool
  packageJson : Option (Option (List String))
  pyprojectToml : Bool
  setupPy : Bool
  terraformDir : Bool
  k8sDir : Bool
  mkdocsYml : Bool
  config : Option FileData

/-- The record `check_config` builds (`result = {...}` dict in the audit
script). -/
structure RepoRecord where
  name : String
  cloned : Bool
  has_config : Bool
  extends_base : Bool
  repo_type : Option String
  status : String
  issue : Option String

namespace Audit

/-- `BASE_CONFIG_URL` of `audit-claude-configs.py`. -/
def BASE_CONFIG_URL : String :=
  "https://raw.githubusercontent.com/raibid-labs/workspace/main/.claude/base-project.json"

/-- `ORG` of `audit-claude-configs.py`. -/
def ORG : String := "raibid-labs"

/-- `detect_repo_type` of `audit-claude-configs.py`. -/
def detect_repo_type (s : RepoState) : String :=
  if s.cargoToml then "rust-service"
  else if s.packageJson.isSome then
    match s.packageJson with
    | some (some deps) =>
        if deps.contains "@modelcontextprotocol/sdk" then "mcp-integration"
        else if ["vitepress", "docusaurus"].any (fun x => deps.contains x) then "typescript-docs"
        else "library"
    | _ => "library"
  else if s.pyprojectToml || s.setupPy then
    if s.name.startsWith "dgx-" then "python-ml" else "library"
  else if s.terraformDir || s.k8sDir then "iac-k8s"
  else if s.mkdocsYml then "docs"
  else "library"

/-- `detect_primary_language` of `audit-claude-configs.py`. -/
def detect_primary_language (repo_type : String) : String :=
  let mapping : List (String × String) :=
    [("rust-service", "rust"),
     ("python-ml", "python"),
     ("typescript-docs", "typescript"),
     ("mcp-integration", "typescript"),
     ("iac-k8s", "hcl"),
     ("docs", "markdown")]
  ((mapping.find? (fun p => p.1 == repo_type)).map Prod.snd).getD "unknown"

/-- The body of the `try:` block of `check_config` after `json.load`
succeeded with `doc`: reads `extends = config.get("extends", "")` and runs
the substring checks.  Returns `(status, extends_base, issue)`; an
exception escaping the block (caught by `except Exception` in
`check_config`) is an `.error` carrying the exception's description. -/
def extendsCheck (doc : Json) : Except String (String × Bool × Option String) :=
  match doc with
  | .obj kvs =>
    let ext := (lookupK kvs "extends").getD (.str "")
    match pyIn "workspace" ext with
    | .error e => .error e
    | .ok b1 =>
      if b1 then
        match pyIn "base-project.json" ext with
        | .error e => .error e
        | .ok b2 =>
          if b2 then .ok ("ok", true, none)
          else if pyTruthy ext then .ok ("wrong_extends", false, some ("Extends: " ++ pyStr ext))
          else .ok ("no_extends", false, some ("No \x27extends\x27 field"))
      else if pyTruthy ext then .ok ("wrong_extends", false, some ("Extends: " ++ pyStr ext))
      else .ok ("no_extends", false, some ("No \x27extends\x27 field"))
  | _ => .error ("AttributeError: object has no attribute get")

/-- `check_config` of `audit-claude-configs.py`. -/
def check_config (s : RepoState) : RepoRecord :=
  let result : RepoRecord :=
    { name := s.name
      cloned := s.dirExists
      has_config := s.dirExists && s.config.isSome
      extends_base := false
      repo_type := none
      status := "unknown"
      issue := none }
  if !result.cloned then
    { result with status := "not_cloned" }
  else if s.name == "workspace" then
    { result with status := "workspace", issue := some "This is the base config repository" }
  else
    let result := { result with repo_type := some (detect_repo_type s) }
    if !result.has_config then
      { result with status := "missing_config", issue := some "No .claude/project.json found" }
    else
      match s.config with
      | none => { result with status := "missing_config", issue := some "No .claude/project.json found" }
      | some (.invalid _) =>
          { result with status := "invalid_json", issue := some "Invalid JSON in config file" }
      | some (.valid doc) =>
          match extendsCheck doc with
          | .ok (st, eb, iss) => { result with status := st, extends_base := eb, issue := iss }
          | .error e => { result with status := "error", issue := some e }

/-- `create_config_template` of `audit-claude-configs.py`. -/
def create_config_template (repo_name repo_type : String) : Json :=
  let primary_lang := detect_primary_language repo_type
  .obj
    [("$schema", .str "https://claude.ai/schemas/project-config.json"),
     ("version", .str "1.0.0"),
     ("extends", .str BASE_CONFIG_URL),
     ("description", .str ("Claude Code configuration for " ++ repo_name)),
     ("project", .obj
       [("name", .str repo_name),
        ("type", .str repo_type),
        ("repository", .str ("https://github.com/" ++ ORG ++ "/" ++ repo_name))]),
     ("language", .obj [("primary", .str primary_lang)]),
     ("customization", .obj
       [("mcpServers", .obj []),
        ("workflows", .obj []),
        ("agents", .arr [])])]

end Audit

namespace Fix

/-- `BASE_CONFIG_URL` of `fix-claude-configs.py`. -/
def BASE_CONFIG_URL : String :=
  "https://raw.githubusercontent.com/raibid-labs/workspace/main/.claude/base-project.json"

/-- `ORG` of `fix-claude-configs.py`. -/
def ORG : String := "raibid-labs"

/-- `detect_repo_type` of `fix-claude-configs.py`. -/
def detect_repo_type (s : RepoState) : String :=
  if s.cargoToml then "rust-service"
  else if s.packageJson.isSome then
    match s.packageJson with
    | some (some deps) =>
        if deps.contains "@modelcontextprotocol/sdk" then "mcp-integration"
        else if ["vitepress", "docusaurus"].any (fun x => deps.contains x) then "typescript-docs"
        else "library"
    | _ => "library"
  else if s.pyprojectToml || s.setupPy then
    if s.name.startsWith "dgx-" then "python-ml" else "library"
  else if s.terraformDir || s.k8sDir then "iac-k8s"
  else if s.mkdocsYml then "docs"
  else "library"

/-- `detect_primary_language` of `fix-claude-configs.py`. -/
def detect_primary_language (repo_type : String) : String :=
  let mapping : List (String × String) :=
    [("rust-service", "rust"),
     ("python-ml", "python"),
     ("typescript-docs", "typescript"),
     ("mcp-integration", "typescript"),
     ("iac-k8s", "hcl"),
     ("docs", "markdown")]
  ((mapping.find? (fun p => p.1 == repo_type)).map Prod.snd).getD "unknown"

/-- `create_config` of `fix-claude-configs.py`. -/
def create_config (repo_name repo_type : String) : Json :=
  let primary_lang := detect_primary_language repo_type
  .obj
    [("$schema", .str "https://claude.ai/schemas/project-config.json"),
     ("version", .str "1.0.0"),
     ("extends", .str BASE_CONFIG_URL),
     ("description", .str ("Claude Code configuration for " ++ repo_name)),
     ("project", .obj
       [("name", .str repo_name),
        ("type", .str repo_type),
        ("repository", .str ("https://github.com/" ++ ORG ++ "/" ++ repo_name))]),
     ("language", .obj [("primary", .str primary_lang)]),
     ("customization", .obj
       [("mcpServers", .obj []),
        ("workflows", .obj []),
        ("agents", .arr [])])]

/-- `fix_repository` of `fix-claude-configs.py`.  Returns the outcome string
together with the repository state after the call; an uncaught Python
exception (the `try:` block only catches `json.JSONDecodeError`; an
`AttributeError` from `config.get` on a non-dict document or a `TypeError`
from `"workspace" in extends` on a non-container value propagates) is
modelled as `.error`.  Writing the config file is modelled as replacing the
`config` component of the state (`json.dump` of a document re-parses to the
same document). -/
def fix_repository (s : RepoState) (dry_run : Bool) : Except String (String × RepoState) :=
  if s.name == "workspace" then .ok ("skipped", s)
  else if !s.dirExists then .ok ("not_cloned", s)
  else
    let repo_type := detect_repo_type s
    match s.config with
    | none =>
        if !dry_run then
          .ok ("created", { s with config := some (.valid (create_config s.name repo_type)) })
        else
          .ok ("created", s)
    | some (.invalid _) => .ok ("error", s)
    | some (.valid doc) =>
        match doc with
        | .obj kvs =>
          let ext := (lookupK kvs "extends").getD (.str "")
          let fixedKvs := setObjKey kvs "extends" (.str BASE_CONFIG_URL)
          let fixedState : RepoState := { s with config := some (.valid (.obj fixedKvs)) }
          match pyIn "workspace" ext with
          | .error e => .error e
          | .ok b1 =>
            if b1 then
              match pyIn "base-project.json" ext with
              | .error e => .error e
              | .ok b2 =>
                if b2 then .ok ("ok", s)
                else if !dry_run then .ok ("fixed", fixedState)
                else .ok ("fixed", s)
            else if !dry_run then .ok ("fixed", fixedState)
            else .ok ("fixed", s)
        | _ => .error ("AttributeError: object has no attribute get")

end Fix

/-- Spec-side helper: the Node manifest parsed and its merged dependency
keys list the Model Context Protocol SDK. -/
def mcpDep (s : RepoState) : Bool :=
  match s.packageJson with
  | some (some deps) => deps.contains "@modelcontextprotocol/sdk"
  | _ => false

/-- Spec-side helper: the Node manifest parsed and its merged dependency
keys list one of the two static-site generators. -/
def ssgDep (s : RepoState) : Bool :=
  match s.packageJson with
  | some (some deps) => deps.contains "vitepress" || deps.contains "docusaurus"
  | _ => false

/-- The classifier as the spec's §4.1 words describe it: a first-match-wins
ordered rule table, defaulting to `library`.  A parse failure of the Node
manifest makes both dependency guards false, so such a repository falls to
the bare Node rule and gets `library`.  This definition follows the spec's
text and is compared against `detect_repo_type`, which follows the code. -/
def classifySpec (s : RepoState) : String :=
  let rules : List (Bool × String) :=
    [(s.cargoToml, "rust-service"),
     (s.packageJson.isSome && mcpDep s, "mcp-integration"),
     (s.packageJson.isSome && !(mcpDep s) && ssgDep s, "typescript-docs"),
     (s.packageJson.isSome, "library"),
     ((s.pyprojectToml || s.setupPy) && s.name.startsWith "dgx-", "python-ml"),
     (s.pyprojectToml || s.setupPy, "library"),
     (s.terraformDir || s.k8sDir, "iac-k8s"),
     (s.mkdocsYml, "docs")]
  ((rules.find? (fun r => r.1)).map Prod.snd).getD "library"

/-- The canonical base-config URL contains the substring `workspace`. -/
theorem url_has_workspace : strContains Fix.BASE_CONFIG_URL "workspace" = true := by
  decide

/-- The canonical base-config URL contains the substring
`base-project.json`. -/
theorem url_has_base : strContains Fix.BASE_CONFIG_URL "base-project.json" = true := by
  decide

/-- Replacing, entry by entry, the value under key `k` keeps the lookup of
any other key `k'` unchanged. -/
theorem lookupK_map_set (kvs : List (String × Json)) (k k' : String) (v : Json)
    (hne : k' ≠ k) :
    lookupK (kvs.map (fun p => if p.1 == k then (p.1, v) else p)) k' = lookupK kvs k' := by
  induction kvs with
  | nil => rfl
  | cons p rest ih =>
    by_cases hp : (p.1 == k) = true
    · have hpk : p.1 = k := by simpa using hp
      have hp' : (p.1 == k') = false := by
        cases h : p.1 == k'
        · rfl
        · exact absurd ((Eq.symm (by simpa using h : p.1 = k')).trans hpk) hne
      simpa [lookupK, List.find?, hp, hp'] using ih
    · by_cases hp' : (p.1 == k') = true
      · simp [lookupK, List.find?, hp, hp']
      · simp only [Bool.not_eq_true] at hp hp'
        simpa [lookupK, List.find?, hp, hp'] using ih

/-- Appending an entry with key `k` keeps the lookup of any other key `k'`
unchanged. -/
theorem lookupK_append_single (kvs : List (String × Json)) (k k' : String) (v : Json)
    (hne : k' ≠ k) :
    lookupK (kvs ++ [(k, v)]) k' = lookupK kvs k' := by
  induction kvs with
  | nil =>
    have hk : (k == k') = false := by
      cases h : k == k'
      · rfl
      · exact absurd (Eq.symm (by simpa using h : k = k')) hne
    simp [lookupK, List.find?, hk]
  | cons p rest ih =>
    by_cases hp : (p.1 == k') = true
    · simp [lookupK, List.find?, hp]
    · simp only [Bool.not_eq_true] at hp
      simpa [lookupK, List.find?, hp] using ih

/-- Looking up the key just stored by `setObjKey` returns the new value. -/
theorem lookupK_setObjKey_self (kvs : List (String × Json)) (k : String) (v : Json) :
    lookupK (setObjKey kvs k v) k = some v := by
  unfold setObjKey
  split
  case isTrue hany =>
    induction kvs with
    | nil => simp at hany
    | cons p rest ih =>
      by_cases hp : (p.1 == k) = true
      · simp [lookupK, List.find?, hp]
      · simp only [List.any_cons, hp, Bool.false_or] at hany
        simp only [Bool.not_eq_true] at hp
        simpa [lookupK, List.find?, hp] using ih hany
  case isFalse hany =>
    induction kvs with
    | nil => simp [lookupK, List.find?]
    | cons p rest ih =>
      simp only [List.any_cons, Bool.or_eq_true, not_or] at hany
      have hp : (p.1 == k) = false := by
        cases h : p.1 == k
        · rfl
        · exact absurd h hany.1
      have := ih (by simpa using hany.2)
      simpa [lookupK, List.find?, hp] using this

/-- `setObjKey` leaves the value stored under every other key unchanged. -/
theorem lookupK_setObjKey_other (kvs : List (String × Json)) (k k' : String) (v : Json)
    (hne : k' ≠ k) :
    lookupK (setObjKey kvs k v) k' = lookupK kvs k' := by
  unfold setObjKey
  split
  · exact lookupK_map_set kvs k k' v hne
  · exact lookupK_append_single kvs k k' v hne

/-- A dry run of the fixer computes the very outcome label of the real run
and returns the repository state untouched. -/
theorem fix_dry_run_eq (s : RepoState) :
    Fix.fix_repository s true = (Fix.fix_repository s false).map (fun p => (p.1, s)) := by
  unfold Fix.fix_repository
  repeat' split
  all_goals try simp_all [Except.map]
  all_goals repeat' split
  all_goals try simp_all [Except.map]
  all_goals subst_vars
  all_goals rfl

/-- Running the fixer on a cloned, non-`workspace` repository whose config
parses to an object whose `extends` entry is the canonical base-config URL
returns `ok` and leaves the state unchanged. -/
theorem fix_run_ok (s : RepoState) (hn : (s.name == "workspace") = false)
    (hd : s.dirExists = true) (kvs : List (String × Json))
    (hc : s.config = some (.valid (.obj kvs)))
    (hext : lookupK kvs "extends" = some (.str Fix.BASE_CONFIG_URL)) :
    Fix.fix_repository s false = .ok ("ok", s) := by
  unfold Fix.fix_repository
  rw [hn, hd, hc]
  simp [hext, pyIn, url_has_workspace, url_has_base]

/-- On a cloned, non-`workspace` repository whose config parses to an
object whose `extends` entry (default empty string) is the string `v`, the
audit record is settled by `v`: both landmark substrings present means
`extends_base` with status `ok`; otherwise a non-empty `v` means
`wrong_extends` with the interpolated issue text; otherwise `no_extends`. -/
theorem check_config_str_cases (s : RepoState) (kvs : List (String × Json)) (v : String)
    (hd : s.dirExists = true) (hn : (s.name == "workspace") = false)
    (hc : s.config = some (.valid (.obj kvs)))
    (hv : (lookupK kvs "extends").getD (.str "") = .str v) :
    ((strContains v "workspace" && strContains v "base-project.json") = true →
      (Audit.check_config s).extends_base = true ∧ (Audit.check_config s).status = "ok") ∧
    ((strContains v "workspace" && strContains v "base-project.json") = false → v ≠ "" →
      (Audit.check_config s).status = "wrong_extends" ∧
      (Audit.check_config s).issue = some ("Extends: " ++ v)) ∧
    ((strContains v "workspace" && strContains v "base-project.json") = false → v = "" →
      (Audit.check_config s).status = "no_extends" ∧
      (Audit.check_config s).issue = some ("No \x27extends\x27 field")) := by
  refine ⟨?_, ?_, ?_⟩
  · intro hb
    rw [Bool.and_eq_true] at hb
    obtain ⟨h1, h2⟩ := hb
    simp [Audit.check_config, hd, hn, hc, Audit.extendsCheck, hv, pyIn, h1, h2]
  · intro hb hv'
    have hvb : (v == "") = false := beq_eq_false_iff_ne.mpr hv'
    cases h1 : strContains v "workspace"
    · simp [Audit.check_config, hd, hn, hc, Audit.extendsCheck, hv, pyIn, pyTruthy, pyStr,
        h1, hvb]
    · have h2 : strContains v "base-project.json" = false := by
        cases h2 : strContains v "base-project.json"
        · rfl
        · rw [h1, h2] at hb
          exact absurd hb (by decide)
      simp [Audit.check_config, hd, hn, hc, Audit.extendsCheck, hv, pyIn, pyTruthy, pyStr,
        h1, h2, hvb]
  · intro hb hv'
    subst hv'
    have h1 : strContains "" "workspace" = false := by decide
    simp [Audit.check_config, hd, hn, hc, Audit.extendsCheck, hv, pyIn, pyTruthy, h1]

/-- Inversion of the fixer's two writing outcomes: a non-dry run that
returns `created` or `fixed` ran on a cloned repository other than
`workspace`, and the state it returns holds, respectively, the freshly
built template or the parsed config with only its `extends` entry
overwritten. -/
theorem fix_write_inv (s s1 : RepoState) (r : String)
    (h : Fix.fix_repository s false = .ok (r, s1))
    (hr : r = "created" ∨ r = "fixed") :
    (s.name == "workspace") = false ∧ s.dirExists = true ∧
    ((r = "created" ∧ s.config = none ∧
        s1 = { s with config := some (.valid (Fix.create_config s.name (Fix.detect_repo_type s))) }) ∨
     (r = "fixed" ∧ ∃ kvs, s.config = some (.valid (.obj kvs)) ∧
        s1 = { s with config := some (.valid (.obj (setObjKey kvs "extends" (.str Fix.BASE_CONFIG_URL)))) })) := by
  unfold Fix.fix_repository at h
  split at h
  · exfalso
    simp only [Except.ok.injEq, Prod.mk.injEq] at h
    rcases hr with rfl | rfl <;> exact absurd h.1 (by decide)
  · rename_i hw
    split at h
    · exfalso
      simp only [Except.ok.injEq, Prod.mk.injEq] at h
      rcases hr with rfl | rfl <;> exact absurd h.1 (by decide)
    · rename_i hd
      refine ⟨by simpa using hw, by simpa using hd, ?_⟩
      split at h
      · rename_i hcfg
        simp only [Bool.not_false, if_true, Except.ok.injEq, Prod.mk.injEq] at h
        exact Or.inl ⟨h.1.symm, hcfg, h.2.symm⟩
      · exfalso
        simp only [Except.ok.injEq, Prod.mk.injEq] at h
        rcases hr with rfl | rfl <;> exact absurd h.1 (by decide)
      · split at h
        · simp only [] at h
          split at h
          · exact absurd h (by simp)
          · split at h
            · split at h
              · exact absurd h (by simp)
              · split at h
                · exfalso
                  simp only [Except.ok.injEq, Prod.mk.injEq] at h
                  rcases hr with rfl | rfl <;> exact absurd h.1 (by decide)
                · simp only [Bool.not_false, if_true, Except.ok.injEq, Prod.mk.injEq] at h
                  refine Or.inr ⟨h.1.symm, _, ?_, h.2.symm⟩
                  assumption
            · simp only [Bool.not_false, if_true, Except.ok.injEq, Prod.mk.injEq] at h
              refine Or.inr ⟨h.1.symm, _, ?_, h.2.symm⟩
              assumption
        · exact absurd h (by simp)

/-- The `try:` block of `check_config` only ever classifies a parsed config
as `ok`, `wrong_extends` or `no_extends`. -/
theorem extendsCheck_status (doc : Json) (st : String) (eb : Bool) (iss : Option String)
    (h : Audit.extendsCheck doc = .ok (st, eb, iss)) :
    st = "ok" ∨ st = "wrong_extends" ∨ st = "no_extends" := by
  unfold Audit.extendsCheck at h
  split at h
  · simp only [] at h
    repeat' split at h
    all_goals simp_all
  · simp_all

/-! ## Claims -/

/-- A concrete repository state (a Rust repository: `Cargo.toml` present)
used to instantiate the theorems below at specific inputs. -/
def sampleState (nm : String) (cfg : Option FileData) : RepoState :=
  { name := nm, dirExists := true, cargoToml := true, packageJson := none,
    pyprojectToml := false, setupPy := false, terraformDir := false,
    k8sDir := false, mkdocsYml := false, config := cfg }

/-- A config file holding a JSON object whose only key is `extends`, bound
to the string `v`. -/
def sampleConfig (v : String) : Option FileData :=
  some (.valid (.obj [("extends", .str v)]))

/-- C1: for a cloned repository other than `workspace` whose config file
parses as a JSON object whose `extends` value (read with default empty
string) is a string `v`, the audit record is settled by `v`: if `v`
contains both literal substrings `workspace` and `base-project.json` then
`extends_base` is true and the status is `ok`; else if `v` is non-empty the
status is `wrong_extends` with issue exactly `Extends: {v}`; else the
status is `no_extends`. -/
theorem claim_c1_audit_extends_trichotomy (s : RepoState) (kvs : List (String × Json))
    (v : String) (hd : s.dirExists = true) (hn : (s.name == "workspace") = false)
    (hc : s.config = some (.valid (.obj kvs)))
    (hv : (lookupK kvs "extends").getD (.str "") = .str v) :
    ((strContains v "workspace" && strContains v "base-project.json") = true →
      (Audit.check_config s).extends_base = true ∧ (Audit.check_config s).status = "ok") ∧
    ((strContains v "workspace" && strContains v "base-project.json") = false → v ≠ "" →
      (Audit.check_config s).status = "wrong_extends" ∧
      (Audit.check_config s).issue = some ("Extends: " ++ v)) ∧
    ((strContains v "workspace" && strContains v "base-project.json") = false → v = "" →
      (Audit.check_config s).status = "no_extends" ∧
      (Audit.check_config s).issue = some ("No \x27extends\x27 field")) :=
  check_config_str_cases s kvs v hd hn hc hv

/-- Witness for C1 at a concrete repository: an `extends` of
`https://example.com/other.json` is reported as `wrong_extends` with the
interpolated issue text. -/
theorem claim_c1_witness :
    (Audit.check_config (sampleState "foo" (sampleConfig "https://example.com/other.json"))).status
        = "wrong_extends" ∧
    (Audit.check_config (sampleState "foo" (sampleConfig "https://example.com/other.json"))).issue
        = some "Extends: https://example.com/other.json" :=
  (claim_c1_audit_extends_trichotomy
    (sampleState "foo" (sampleConfig "https://example.com/other.json"))
    [("extends", .str "https://example.com/other.json")] "https://example.com/other.json"
    rfl rfl rfl rfl).2.1 (by decide) (by decide)

/-- C2: both scripts' classifiers realise exactly the spec's first-match
decision table `classifySpec`: Rust manifest first, then the Node manifest
with its dependency inspection (parse failure swallowed, falling to
`library`), then the Python-manifest, infra-directory and docs-manifest
rules, defaulting to `library`. -/
theorem claim_c2_classifier_matches_spec_table (s : RepoState) :
    Audit.detect_repo_type s = classifySpec s ∧ Fix.detect_repo_type s = classifySpec s := by
  have h : Audit.detect_repo_type s = classifySpec s := by
    obtain ⟨n, de, ct, pj, py, sp, tf, k8, mk, cf⟩ := s
    cases ct
    · cases pj with
      | none =>
        cases hdg : n.startsWith "dgx-" <;> cases py <;> cases sp <;> cases tf <;>
          cases k8 <;> cases mk <;>
            simp [Audit.detect_repo_type, classifySpec, mcpDep, ssgDep, hdg, List.find?]
      | some pp =>
        cases pp with
        | none => simp [Audit.detect_repo_type, classifySpec, mcpDep, ssgDep, List.find?]
        | some deps =>
          by_cases hm : "@modelcontextprotocol/sdk" ∈ deps <;>
          by_cases hv : "vitepress" ∈ deps <;>
          by_cases hdc : "docusaurus" ∈ deps <;>
            simp [Audit.detect_repo_type, classifySpec, mcpDep, ssgDep, hm, hv, hdc,
              List.find?, List.any]
    · simp [Audit.detect_repo_type, classifySpec, List.find?]
  exact ⟨h, h⟩

/-- C3: idempotence of the fixer — whenever the non-dry first run returns
`created` or `fixed`, a second non-dry run on the resulting state returns
`ok` (the written config's `extends` is the canonical base-config URL,
which satisfies the ok predicate) and changes nothing further. -/
theorem claim_c3_fixer_idempotent (s s1 : RepoState) (r1 : String)
    (h : Fix.fix_repository s false = .ok (r1, s1))
    (hr : r1 = "created" ∨ r1 = "fixed") :
    Fix.fix_repository s1 false = .ok ("ok", s1) := by
  obtain ⟨hw, hd, hcase⟩ := fix_write_inv s s1 r1 h hr
  rcases hcase with ⟨-, hcfg, rfl⟩ | ⟨-, kvs, hcfg, rfl⟩
  · exact fix_run_ok _ hw hd _ rfl rfl
  · exact fix_run_ok _ hw hd _ rfl
      (lookupK_setObjKey_self kvs "extends" (.str Fix.BASE_CONFIG_URL))

/-- Witness for C3: a repository with no config gets one created; running
the fixer again on the result returns `ok`. -/
theorem claim_c3_witness :
    Fix.fix_repository
        (sampleState "foo" (some (.valid (Fix.create_config "foo" "rust-service")))) false
      = .ok ("ok", sampleState "foo" (some (.valid (Fix.create_config "foo" "rust-service")))) :=
  claim_c3_fixer_idempotent (sampleState "foo" none) _ "created" rfl (Or.inl rfl)

/-- C4: dry-run non-mutation — whenever the non-dry run would return
`created` or `fixed`, the dry run returns the same outcome label and the
repository state unchanged. -/
theorem claim_c4_dry_run_frame (s s2 : RepoState) (r : String)
    (h : Fix.fix_repository s false = .ok (r, s2))
    (hr : r = "created" ∨ r = "fixed") :
    Fix.fix_repository s true = .ok (r, s) := by
  rw [fix_dry_run_eq, h]
  rfl

/-- Witness for C4: dry-running the fixer on a config-less repository
reports `created` and leaves the state untouched. -/
theorem claim_c4_witness :
    Fix.fix_repository (sampleState "foo" none) true = .ok ("created", sampleState "foo" none) :=
  claim_c4_dry_run_frame (sampleState "foo" none)
    (sampleState "foo" (some (.valid (Fix.create_config "foo" "rust-service")))) "created"
    rfl (Or.inl rfl)

/-- C5: the repository named `workspace` is reported by the auditor with
status `workspace` and its fixed explanatory issue string (whenever its
directory exists, the only case in which a config content exists at all),
and the fixer always returns `skipped` on it with no change to the state,
regardless of its config content. -/
theorem claim_c5_workspace_exempt (s : RepoState) (hn : s.name = "workspace") :
    (s.dirExists = true →
      (Audit.check_config s).status = "workspace" ∧
      (Audit.check_config s).issue = some "This is the base config repository") ∧
    ∀ d, Fix.fix_repository s d = .ok ("skipped", s) := by
  constructor
  · intro hd
    constructor <;> simp [Audit.check_config, hd, hn]
  · intro d
    unfold Fix.fix_repository
    simp [hn]

/-- Witness for C5: the `workspace` repository with an unreadable config is
still reported `workspace` and skipped by the fixer. -/
theorem claim_c5_witness :
    (Audit.check_config (sampleState "workspace" (some (.invalid "oops")))).status = "workspace" ∧
    Fix.fix_repository (sampleState "workspace" (some (.invalid "oops"))) false
      = .ok ("skipped", sampleState "workspace" (some (.invalid "oops"))) := by
  have h := claim_c5_workspace_exempt (sampleState "workspace" (some (.invalid "oops"))) rfl
  exact ⟨(h.1 rfl).1, h.2 false⟩

/-- C6: a config file whose content is not valid JSON is reported
`invalid_json` by the auditor, and the fixer returns `error` leaving the
repository state — in particular that file — unchanged. -/
theorem claim_c6_invalid_json (s : RepoState) (raw : String)
    (hd : s.dirExists = true) (hn : (s.name == "workspace") = false)
    (hc : s.config = some (.invalid raw)) :
    (Audit.check_config s).status = "invalid_json" ∧
    (Audit.check_config s).issue = some "Invalid JSON in config file" ∧
    ∀ d, Fix.fix_repository s d = .ok ("error", s) := by
  refine ⟨?_, ?_, fun d => ?_⟩
  · simp [Audit.check_config, hd, hn, hc]
  · simp [Audit.check_config, hd, hn, hc]
  · simp [Fix.fix_repository, hd, hn, hc]

/-- Witness for C6 on a concrete truncated-JSON config. -/
theorem claim_c6_witness :
    (Audit.check_config (sampleState "foo" (some (.invalid "trunca")))).status = "invalid_json" ∧
    Fix.fix_repository (sampleState "foo" (some (.invalid "trunca"))) false
      = .ok ("error", sampleState "foo" (some (.invalid "trunca"))) := by
  have h := claim_c6_invalid_json (sampleState "foo" (some (.invalid "trunca"))) "trunca"
    rfl rfl rfl
  exact ⟨h.1, h.2.2 false⟩

/-- C7: when the non-dry fixer returns `fixed` on a repository whose config
parsed to the object `kvs`, the rewritten config is exactly `kvs` with its
`extends` entry overwritten by the canonical base-config URL: the new
`extends` lookup gives the URL and the lookup of every other key is
unchanged. -/
theorem claim_c7_fix_preserves_other_keys (s s1 : RepoState) (kvs : List (String × Json))
    (hc : s.config = some (.valid (.obj kvs)))
    (h : Fix.fix_repository s false = .ok ("fixed", s1)) :
    s1.config = some (.valid (.obj (setObjKey kvs "extends" (.str Fix.BASE_CONFIG_URL)))) ∧
    lookupK (setObjKey kvs "extends" (.str Fix.BASE_CONFIG_URL)) "extends"
      = some (.str Fix.BASE_CONFIG_URL) ∧
    ∀ k, k ≠ "extends" →
      lookupK (setObjKey kvs "extends" (.str Fix.BASE_CONFIG_URL)) k = lookupK kvs k := by
  obtain ⟨-, -, hcase⟩ := fix_write_inv s s1 "fixed" h (Or.inr rfl)
  rcases hcase with ⟨hne, -, -⟩ | ⟨-, kvs', hc', rfl⟩
  · exact absurd hne (by decide)
  · rw [hc] at hc'
    simp only [Option.some.injEq, FileData.valid.injEq, Json.obj.injEq] at hc'
    subst hc'
    exact ⟨rfl, lookupK_setObjKey_self kvs "extends" (.str Fix.BASE_CONFIG_URL),
      fun k hk => lookupK_setObjKey_other kvs "extends" k (.str Fix.BASE_CONFIG_URL) hk⟩

/-- The two-key config object used to instantiate C7. -/
def c7kvs : List (String × Json) :=
  [("version", .str "1.0.0"), ("extends", .str "https://example.com/other.json")]

/-- Witness for C7: fixing a config with keys `version` and `extends`
rewrites `extends` and keeps `version` intact. -/
theorem claim_c7_witness :
    (sampleState "foo"
        (some (.valid (.obj (setObjKey c7kvs "extends" (.str Fix.BASE_CONFIG_URL)))))).config
      = some (.valid (.obj (setObjKey c7kvs "extends" (.str Fix.BASE_CONFIG_URL)))) ∧
    lookupK (setObjKey c7kvs "extends" (.str Fix.BASE_CONFIG_URL)) "version"
      = lookupK c7kvs "version" := by
  have h := claim_c7_fix_preserves_other_keys
    (sampleState "foo" (some (.valid (.obj c7kvs))))
    (sampleState "foo" (some (.valid (.obj (setObjKey c7kvs "extends" (.str Fix.BASE_CONFIG_URL))))))
    c7kvs rfl rfl
  exact ⟨h.1, h.2.2 "version" (by decide)⟩

/-- C8: round-trip — for every repository name and type, the template
document's `extends` is the canonical base-config URL, that URL satisfies
the auditor's ok predicate, and an audited cloned non-`workspace`
repository holding exactly that document gets status `ok` with
`extends_base` set. -/
theorem claim_c8_round_trip (n t : String) :
    (∃ kvs, Audit.create_config_template n t = .obj kvs ∧
       lookupK kvs "extends" = some (.str Audit.BASE_CONFIG_URL)) ∧
    (strContains Audit.BASE_CONFIG_URL "workspace"
       && strContains Audit.BASE_CONFIG_URL "base-project.json") = true ∧
    ∀ s : RepoState, s.dirExists = true → (s.name == "workspace") = false →
      s.config = some (.valid (Audit.create_config_template n t)) →
      (Audit.check_config s).status = "ok" ∧ (Audit.check_config s).extends_base = true := by
  refine ⟨⟨_, rfl, rfl⟩, by decide, fun s hd hn hc => ?_⟩
  have h := check_config_str_cases s _ Audit.BASE_CONFIG_URL hd hn hc rfl
  have hok := h.1 (by decide)
  exact ⟨hok.2, hok.1⟩

/-- Witness for C8: a repository holding the template built for
(`bar`, `docs`) audits as `ok`. -/
theorem claim_c8_witness :
    (Audit.check_config
        (sampleState "foo" (some (.valid (Audit.create_config_template "bar" "docs"))))).status
      = "ok" :=
  ((claim_c8_round_trip "bar" "docs").2.2
    (sampleState "foo" (some (.valid (Audit.create_config_template "bar" "docs"))))
    rfl rfl rfl).1

/-- C9: the audit script and the fix script define the same classifier, the
same language mapper and the same config-template builder. -/
theorem claim_c9_shared_functions :
    (∀ s : RepoState, Audit.detect_repo_type s = Fix.detect_repo_type s) ∧
    (∀ t : String, Audit.detect_primary_language t = Fix.detect_primary_language t) ∧
    (∀ n t : String, Audit.create_config_template n t = Fix.create_config n t) :=
  ⟨fun _ => rfl, fun _ => rfl, fun _ _ => rfl⟩

/-- C10: totality of the auditor's per-repository check — the status of the
returned record always lies in the defined buckets, and any exception the
`try:` block raises other than a JSON decode error (for example on a valid
JSON config that is not an object, or whose `extends` is not a container)
is converted to status `error` with the exception's description as the
issue. -/
theorem claim_c10_check_config_total (s : RepoState) :
    (Audit.check_config s).status ∈
      ["not_cloned", "workspace", "missing_config", "invalid_json", "ok",
       "wrong_extends", "no_extends", "error"] ∧
    (∀ doc e, s.config = some (.valid doc) → s.dirExists = true →
      (s.name == "workspace") = false → Audit.extendsCheck doc = .error e →
      (Audit.check_config s).status = "error" ∧ (Audit.check_config s).issue = some e) := by
  constructor
  · unfold Audit.check_config
    simp only []
    split
    · simp
    · split
      · simp
      · split
        · simp
        · split
          · simp
          · simp
          · split
            · rename_i st eb iss heq
              rcases extendsCheck_status _ _ _ _ heq with rfl | rfl | rfl <;> simp
            · simp
  · intro doc e hcfg hd hn hec
    constructor <;> simp [Audit.check_config, hd, hn, hcfg, hec]

/-- Witness for C10: a config that is valid JSON but not an object (the
number 5) is reported with status `error`. -/
theorem claim_c10_witness :
    (Audit.check_config (sampleState "foo" (some (.valid (.num 5))))).status = "error" :=
  ((claim_c10_check_config_total (sampleState "foo" (some (.valid (.num 5))))).2
    (.num 5) "AttributeError: object has no attribute get" rfl rfl rfl rfl).1
